import Mathlib

/-!
Shallow embedding of `scripts/post_build.py` (T-Deck-Pro OS post-build hook).

The script is a linear pipeline of filesystem side effects driven by a
PlatformIO build-environment object.  We model:

  * the environment object (`Env`, possibly absent as in the `Import("env")`
    `try/except` at the top of the script);
  * the filesystem as a finite association list from path strings to file
    data, plus a set of created directories;
  * console output as a list of `Line` values, one per `print` call.  Prints
    whose text embeds a float rendering (`size_kb:.1f`, `remaining_mb:.2f`)
    are modelled by constructors carrying the exact integer byte counts the
    script computes; the decimal rendering is presentation only.  All other
    prints are `Line.msg` with the printed text (f-string interpolation is
    string append);
  * `datetime.now().strftime("%Y%m%d_%H%M%S")` as a timestamp parameter;
    the script calls it once in `generate_build_artifacts` and once in
    `create_ota_package`, so `main` takes two timestamp arguments.

Each effectful step returns the new filesystem, its console output, and the
list of file paths it wrote (`shutil.copy2` / `open(...,'w')` targets).
-/

/-- Contents of the version-info manifest written by `create_ota_package`
(the record passed to `json.dump`). -/
structure VersionInfo where
  version : String
  timestamp : String
  environment : String
  size : Nat
  filename : String
  deriving DecidableEq

/-- File contents, as far as the script inspects them: the firmware binary is
an opaque blob (only its size is read), `build_info.h` is text, and the
manifest is the structured record `json.dump` serializes. -/
inductive FContent where
  | firmware
  | text (s : String)
  | manifest (m : VersionInfo)
  deriving DecidableEq

/-- A file: its `stat().st_size` and its contents. -/
structure FileData where
  size : Nat
  content : FContent
  deriving DecidableEq

/-- Filesystem state: files as an association list keyed by path, and the
set of directories that exist. -/
structure FS where
  files : List (String × FileData)
  dirs : List String
  deriving DecidableEq

def FS.getFile (fs : FS) (p : String) : Option FileData :=
  fs.files.lookup p

/-- `Path.exists()` for the file paths the script checks. -/
def FS.fileExists (fs : FS) (p : String) : Bool :=
  (fs.getFile p).isSome

/-- Write (create or overwrite) a file, as `shutil.copy2` / `open(p,'w')` do. -/
def FS.write (fs : FS) (p : String) (d : FileData) : FS :=
  { fs with files := (p, d) :: fs.files.filter (fun q => q.1 != p) }

/-- `Path.mkdir(exist_ok=True)`. -/
def FS.mkdir (fs : FS) (p : String) : FS :=
  if fs.dirs.contains p then fs else { fs with dirs := p :: fs.dirs }

/-- `Path.unlink()` (total in the model; the script wraps it in `try/except`). -/
def FS.unlink (fs : FS) (p : String) : FS :=
  { fs with files := fs.files.filter (fun q => q.1 != p) }

/-- The PlatformIO environment object: the variables `env.get` reads, and the
build directory `env.subst("$BUILD_DIR")` substitutes. -/
structure Env where
  vars : List (String × String)
  buildDir : String

/-- `env.get(key, default)`. -/
def Env.get (e : Env) (key dflt : String) : String :=
  (e.vars.lookup key).getD dflt

/-- One console line per `print` call. -/
inductive Line where
  | msg (s : String)
  | sizeReport (size : Nat)
  | remainingSpace (bytes : Nat)
  deriving DecidableEq

/-- `s2 in s1` for Python strings: `needle` occurs as a contiguous substring. -/
def isPrefixOfChars : List Char → List Char → Bool
  | [], _ => true
  | _ :: _, [] => false
  | a :: as, b :: bs => a == b && isPrefixOfChars as bs

def containsSub (needle : List Char) : List Char → Bool
  | [] => isPrefixOfChars needle []
  | c :: t => isPrefixOfChars needle (c :: t) || containsSub needle t

def strContains (hay needle : String) : Bool :=
  containsSub needle.data hay.data

/-- Python `str.split(sep)` for a single-character separator: `n` occurrences
of `sep` yield `n + 1` (possibly empty) parts. -/
def pySplit (sep : Char) : List Char → List (List Char)
  | [] => [[]]
  | c :: t =>
    let r := pySplit sep t
    if c == sep then [] :: r
    else
      match r with
      | [] => [[c]]
      | h :: t2 => (c :: h) :: t2

/-- The loop guard `if 'BUILD_VERSION' in line and '"' in line`. -/
def versionLineMatches (l : List Char) : Bool :=
  containsSub "BUILD_VERSION".data l && containsSub "\"".data l

/-- The version-extraction scan of `create_ota_package`: split the header text
into lines, take the first line containing both the marker and a quote, and
return `line.split('"')[1]`; otherwise keep the default `"1.0.0"`. -/
def extractVersion (content : String) : String :=
  match (pySplit '\x0a' content.data).find? versionLineMatches with
  | none => "1.0.0"
  | some l => String.mk ((pySplit '"' l).getD 1 [])

/-- The `version` computed by `create_ota_package` lines 134-145: default
`"1.0.0"`, replaced by the scan of `src/core/build_info.h` when that file
exists and is readable text (any failure is swallowed by the `try/except`). -/
def readBuildVersion (fs : FS) : String :=
  match fs.getFile "src/core/build_info.h" with
  | some fd =>
    match fd.content with
    | FContent.text s => extractVersion s
    | _ => "1.0.0"
  | none => "1.0.0"

/-- Result of one effectful pipeline step (and of `main`). -/
structure StepResult where
  fs : FS
  out : List Line
  writes : List String
  deriving DecidableEq

/-- The separator `print("=" * 60)`. -/
def sepLine : String := String.mk (List.replicate 60 '=')

/-- `print_build_summary`: console only. -/
def print_build_summary (env : Option Env) : List Line :=
  [Line.msg sepLine,
   Line.msg "T-DECK-PRO OS - POST-BUILD SCRIPT",
   Line.msg sepLine] ++
  (match env with
   | some e =>
     [Line.msg ("Environment: " ++ e.get "PIOENV" "Unknown"),
      Line.msg ("Platform: " ++ e.get "PIOPLATFORM" "Unknown"),
      Line.msg ("Framework: " ++ e.get "PIOFRAMEWORK" "Unknown")]
   | none => []) ++
  [Line.msg sepLine]

/-- `max_app_size = 6 * 1024 * 1024`. -/
def max_app_size : Nat := 6 * 1024 * 1024

/-- `analyze_firmware_size`: console only.  `Line.sizeReport` carries the
exact byte size, `Line.remainingSpace` the exact `max_app_size - size`. -/
def analyze_firmware_size (env : Option Env) (fs : FS) : List Line :=
  Line.msg "Analyzing firmware size..." ::
  match env with
  | none => [Line.msg "⚠ Environment not available - skipping size analysis"]
  | some e =>
    match fs.getFile (e.buildDir ++ "/firmware.bin") with
    | some fd =>
      Line.sizeReport fd.size ::
      (if fd.size > max_app_size then
        [Line.msg "⚠ Warning: Firmware size exceeds typical app partition limit!",
         Line.msg "  Consider enabling optimization or reducing features"]
      else
        [Line.remainingSpace (max_app_size - fd.size)])
    | none => [Line.msg "⚠ Firmware binary not found"]

/-- `generate_build_artifacts`: copies firmware (timestamped name), ELF and
map (untimestamped names) into `build_artifacts`. -/
def generate_build_artifacts (env : Option Env) (ts : String) (fs : FS) :
    StepResult :=
  let out0 := [Line.msg "Generating build artifacts..."]
  match env with
  | none =>
    ⟨fs, out0 ++ [Line.msg "⚠ Environment not available - skipping artifact generation"], []⟩
  | some e =>
    let fs1 := fs.mkdir "build_artifacts"
    let env_name := e.get "PIOENV" "unknown"
    let firmware_src := e.buildDir ++ "/firmware.bin"
    let step1 : FS × List Line × List String :=
      match fs1.getFile firmware_src with
      | some fd =>
        let firmware_dst := "build_artifacts/t-deck-pro-os_" ++ env_name ++ "_" ++ ts ++ ".bin"
        (fs1.write firmware_dst fd,
         [Line.msg ("✓ Firmware copied: " ++ firmware_dst)], [firmware_dst])
      | none => (fs1, [], [])
    let elf_src := e.buildDir ++ "/firmware.elf"
    let step2 : FS × List Line × List String :=
      match step1.1.getFile elf_src with
      | some fd =>
        let elf_dst := "build_artifacts/t-deck-pro-os_" ++ env_name ++ ".elf"
        (step1.1.write elf_dst fd,
         [Line.msg ("✓ ELF file copied: " ++ elf_dst)], [elf_dst])
      | none => (step1.1, [], [])
    let map_src := e.buildDir ++ "/firmware.map"
    let step3 : FS × List Line × List String :=
      match step2.1.getFile map_src with
      | some fd =>
        let map_dst := "build_artifacts/t-deck-pro-os_" ++ env_name ++ ".map"
        (step2.1.write map_dst fd,
         [Line.msg ("✓ Memory map copied: " ++ map_dst)], [map_dst])
      | none => (step2.1, [], [])
    ⟨step3.1, out0 ++ step1.2.1 ++ step2.2.1 ++ step3.2.1,
     step1.2.2 ++ step2.2.2 ++ step3.2.2⟩

/-- `create_ota_package`: for release/ota builds, copies the firmware into
`ota_packages` under a version+timestamp name and writes the JSON manifest
(manifest file size modelled as 0; no claim reads it). -/
def create_ota_package (env : Option Env) (ts : String) (fs : FS) :
    StepResult :=
  let out0 := [Line.msg "Creating OTA package..."]
  match env with
  | none =>
    ⟨fs, out0 ++ [Line.msg "⚠ Environment not available - skipping OTA package"], []⟩
  | some e =>
    let env_name := e.get "PIOENV" "unknown"
    if !strContains env_name "release" && !strContains env_name "ota" then
      ⟨fs, out0 ++ [Line.msg "⚠ Skipping OTA package (not a release/OTA build)"], []⟩
    else
      let fs1 := fs.mkdir "ota_packages"
      let firmware_src := e.buildDir ++ "/firmware.bin"
      match fs1.getFile firmware_src with
      | none =>
        ⟨fs1, out0 ++ [Line.msg "✗ Firmware binary not found for OTA package"], []⟩
      | some fd =>
        let version := readBuildVersion fs1
        let ota_name := "t-deck-pro-os_v" ++ version ++ "_" ++ ts ++ ".bin"
        let ota_package := "ota_packages/" ++ ota_name
        let fs2 := fs1.write ota_package fd
        let version_info : VersionInfo :=
          { version := version, timestamp := ts, environment := env_name,
            size := fd.size, filename := ota_name }
        let version_file := "ota_packages/version_v" ++ version ++ "_" ++ ts ++ ".json"
        let fs3 := fs2.write version_file ⟨0, FContent.manifest version_info⟩
        ⟨fs3,
         out0 ++ [Line.msg ("✓ OTA package created: " ++ ota_package),
                  Line.msg ("✓ Version info: " ++ version_file)],
         [ota_package, version_file]⟩

/-- `cleanup_build_files`: deletes `src/core/build_info.h` if present.  The
script's `except` branch fires only on OS-level deletion errors, which the
total model cannot produce, so it is unreachable here. -/
def cleanup_build_files (fs : FS) : FS × List Line :=
  let out0 := [Line.msg "Cleaning up build files..."]
  if fs.fileExists "src/core/build_info.h" then
    (fs.unlink "src/core/build_info.h", out0 ++ [Line.msg "✓ Cleaned up build_info.h"])
  else
    (fs, out0)

/-- `print_build_success`: the fixed success banner. -/
def print_build_success : List Line :=
  [Line.msg sepLine,
   Line.msg "🚀 T-DECK-PRO OS BUILD COMPLETE!",
   Line.msg sepLine,
   Line.msg "Next steps:",
   Line.msg "1. Flash firmware to T-Deck-Pro device",
   Line.msg "2. Check serial monitor for boot messages",
   Line.msg "3. Test core functionality",
   Line.msg "4. Deploy to production if release build",
   Line.msg sepLine]

/-- `main` of the script (six steps in order.  `tsArt` and `tsOta` are the two
`datetime.now()` readings (lines 83 and 131 of the script)). -/
def post_build_main (env : Option Env) (tsArt tsOta : String) (fs : FS) : StepResult :=
  let o1 := print_build_summary env
  let o2 := analyze_firmware_size env fs
  let r3 := generate_build_artifacts env tsArt fs
  let r4 := create_ota_package env tsOta r3.fs
  let r5 := cleanup_build_files r4.fs
  ⟨r5.1, o1 ++ o2 ++ r3.out ++ r4.out ++ r5.2 ++ print_build_success,
   r3.writes ++ r4.writes⟩

/-! ### Basic lemmas about the filesystem model -/

theorem lookup_filter_self {β : Type} (p : String) (l : List (String × β)) :
    (l.filter (fun q => q.1 != p)).lookup p = none := by
  induction l with
  | nil => rfl
  | cons a t ih =>
    obtain ⟨k, b⟩ := a
    rw [List.filter_cons]
    by_cases h : k = p
    · simp [h, ih]
    · have hpk : (p == k) = false := by simp [Ne.symm h]
      simp [h, List.lookup_cons, hpk, ih]

theorem lookup_filter_other {β : Type} (p q : String) (l : List (String × β))
    (h : q ≠ p) :
    (l.filter (fun x => x.1 != p)).lookup q = l.lookup q := by
  induction l with
  | nil => rfl
  | cons a t ih =>
    obtain ⟨k, b⟩ := a
    rw [List.filter_cons]
    by_cases ha : k = p
    · have hqk : (q == k) = false := by simp [ha, h]
      have hqp : (q == p) = false := by simp [h]
      simp [ha, List.lookup_cons, hqk, hqp, ih]
    · by_cases hq : q = k
      · simp [ha, List.lookup_cons, hq]
      · have hqk : (q == k) = false := by simp [hq]
        simp [ha, List.lookup_cons, hqk, ih]

theorem FS.getFile_mkdir (fs : FS) (p q : String) :
    (fs.mkdir p).getFile q = fs.getFile q := by
  unfold FS.mkdir FS.getFile
  split <;> rfl

theorem FS.mem_dirs_mkdir (fs : FS) (p : String) :
    p ∈ (fs.mkdir p).dirs := by
  unfold FS.mkdir
  split
  · next h => exact List.elem_iff.mp h
  · exact List.mem_cons_self _ _

theorem FS.getFile_write_self (fs : FS) (p : String) (d : FileData) :
    (fs.write p d).getFile p = some d := by
  unfold FS.write FS.getFile
  simp [List.lookup_cons]

theorem FS.getFile_write_ne (fs : FS) (p : String) (d : FileData) (q : String)
    (h : q ≠ p) :
    (fs.write p d).getFile q = fs.getFile q := by
  unfold FS.write FS.getFile
  simp only [List.lookup_cons]
  have : ¬ (q == p) = true := by simp [h]
  simp [this, lookup_filter_other p q _ h]

theorem FS.getFile_unlink_self (fs : FS) (p : String) :
    (fs.unlink p).getFile p = none := by
  unfold FS.unlink FS.getFile
  exact lookup_filter_self p fs.files

/-! ### C1, C5, C8, C9 -/

/-- C1: for every invocation of `main` — any environment (present or absent),
any timestamps, any filesystem — the model is a total function (none of the
partial upstream failures the script guards against can raise: missing files
and a missing environment are all handled by explicit branches), and the
console output always ends with the success banner. -/
theorem c1_main_always_completes_with_success_banner
    (env : Option Env) (ts1 ts2 : String) (fs : FS) :
    List.IsSuffix print_build_success (post_build_main env ts1 ts2 fs).out :=
  ⟨_, rfl⟩

/-- C5: when the environment name contains neither "release" nor "ota", the
OTA packager prints only the notice and leaves the filesystem completely
unchanged, writing no files. -/
theorem c5_ota_noop_for_non_release (e : Env) (ts : String) (fs : FS)
    (h1 : strContains (e.get "PIOENV" "unknown") "release" = false)
    (h2 : strContains (e.get "PIOENV" "unknown") "ota" = false) :
    create_ota_package (some e) ts fs =
      ⟨fs, [Line.msg "Creating OTA package...",
            Line.msg "⚠ Skipping OTA package (not a release/OTA build)"], []⟩ := by
  simp [create_ota_package, h1, h2]

/-- Witness for C5 at a concrete debug build. -/
theorem c5_ota_noop_for_non_release_witness :
    create_ota_package (some ⟨[("PIOENV", "debug")], "bd"⟩) "T" ⟨[], []⟩ =
      ⟨⟨[], []⟩, [Line.msg "Creating OTA package...",
            Line.msg "⚠ Skipping OTA package (not a release/OTA build)"], []⟩ :=
  c5_ota_noop_for_non_release ⟨[("PIOENV", "debug")], "bd"⟩ "T" ⟨[], []⟩
    (by decide) (by decide)

/-- C8: invoking the script outside a build context (`env = None`) still runs
the cleanup step: after `main`, `src/core/build_info.h` is gone, and if it
was present the cleanup message was printed. -/
theorem c8_cleanup_runs_without_env (ts1 ts2 : String) (fs : FS) :
    (post_build_main none ts1 ts2 fs).fs.getFile "src/core/build_info.h" = none ∧
    (fs.fileExists "src/core/build_info.h" = true →
      Line.msg "✓ Cleaned up build_info.h" ∈ (post_build_main none ts1 ts2 fs).out) := by
  constructor
  · show (cleanup_build_files fs).1.getFile "src/core/build_info.h" = none
    unfold cleanup_build_files
    by_cases h : fs.fileExists "src/core/build_info.h"
    · simp [h, FS.getFile_unlink_self]
    · have h' : fs.getFile "src/core/build_info.h" = none := by
        rcases ho : fs.getFile "src/core/build_info.h" with _ | d
        · rfl
        · exact absurd (by simp [FS.fileExists, ho]) h
      simp [h, h']
  · intro h
    show Line.msg "✓ Cleaned up build_info.h" ∈
      (print_build_summary none ++ analyze_firmware_size none fs ++
        (generate_build_artifacts none ts1 fs).out ++
        (create_ota_package none ts2 fs).out ++
        (cleanup_build_files fs).2 ++ print_build_success)
    have hc : (cleanup_build_files fs).2 =
        [Line.msg "Cleaning up build files...", Line.msg "✓ Cleaned up build_info.h"] := by
      unfold cleanup_build_files
      simp [h]
    simp [hc]

/-- Witness for C8 (second conjunct has a hypothesis): concrete filesystem
holding only the generated header. -/
theorem c8_cleanup_runs_without_env_witness :
    (post_build_main none "A" "B"
        ⟨[("src/core/build_info.h", ⟨7, FContent.text "x"⟩)], []⟩).fs.getFile
      "src/core/build_info.h" = none ∧
    Line.msg "✓ Cleaned up build_info.h" ∈
      (post_build_main none "A" "B"
        ⟨[("src/core/build_info.h", ⟨7, FContent.text "x"⟩)], []⟩).out := by
  refine ⟨(c8_cleanup_runs_without_env "A" "B" _).1,
          (c8_cleanup_runs_without_env "A" "B" _).2 (by decide)⟩

/-- C9: on a release/ota build with the firmware binary absent, the OTA
packager creates the `ota_packages` directory, then aborts: the result is
exactly `fs` plus that directory, the error line, and zero files written. -/
theorem c9_ota_error_path_still_creates_directory (e : Env) (ts : String) (fs : FS)
    (hg : (strContains (e.get "PIOENV" "unknown") "release" ||
           strContains (e.get "PIOENV" "unknown") "ota") = true)
    (hf : fs.getFile (e.buildDir ++ "/firmware.bin") = none) :
    create_ota_package (some e) ts fs =
      ⟨fs.mkdir "ota_packages",
       [Line.msg "Creating OTA package...",
        Line.msg "✗ Firmware binary not found for OTA package"], []⟩ ∧
    "ota_packages" ∈ (create_ota_package (some e) ts fs).fs.dirs := by
  have hfm : (fs.mkdir "ota_packages").getFile (e.buildDir ++ "/firmware.bin") = none := by
    rw [FS.getFile_mkdir]; exact hf
  have hcond : (!strContains (e.get "PIOENV" "unknown") "release" &&
      !strContains (e.get "PIOENV" "unknown") "ota") = false := by
    rcases Bool.or_eq_true_iff.mp hg with h | h <;> simp [h]
  have heq : create_ota_package (some e) ts fs =
      ⟨fs.mkdir "ota_packages",
       [Line.msg "Creating OTA package...",
        Line.msg "✗ Firmware binary not found for OTA package"], []⟩ := by
    simp [create_ota_package, hcond, hfm]
  exact ⟨heq, by rw [heq]; exact FS.mem_dirs_mkdir fs "ota_packages"⟩

/-- Witness for C9 at a concrete release build with no firmware. -/
theorem c9_ota_error_path_still_creates_directory_witness :
    create_ota_package (some ⟨[("PIOENV", "esp32-release")], "bd"⟩) "T" ⟨[], []⟩ =
      ⟨FS.mkdir ⟨[], []⟩ "ota_packages",
       [Line.msg "Creating OTA package...",
        Line.msg "✗ Firmware binary not found for OTA package"], []⟩ ∧
    "ota_packages" ∈ (create_ota_package (some ⟨[("PIOENV", "esp32-release")], "bd"⟩)
        "T" ⟨[], []⟩).fs.dirs :=
  c9_ota_error_path_still_creates_directory ⟨[("PIOENV", "esp32-release")], "bd"⟩ "T"
    ⟨[], []⟩ (by decide) (by decide)

/-! ### C2 -/

/-- C2: with the firmware present at size `S`: if `S ≤ 6*1024*1024` the
analyzer reports exactly `threshold - S` remaining (exact `Nat` arithmetic;
`Line.remainingSpace` carries the exact byte count) and emits no overflow
warning; if `S` exceeds the threshold it warns and prints no remaining-space
figure. -/
theorem c2_size_analysis_threshold (e : Env) (fs : FS) (fd : FileData)
    (hfw : fs.getFile (e.buildDir ++ "/firmware.bin") = some fd) :
    (fd.size ≤ max_app_size →
      analyze_firmware_size (some e) fs =
        [Line.msg "Analyzing firmware size...", Line.sizeReport fd.size,
         Line.remainingSpace (max_app_size - fd.size)] ∧
      Line.msg "⚠ Warning: Firmware size exceeds typical app partition limit!" ∉
        analyze_firmware_size (some e) fs) ∧
    (max_app_size < fd.size →
      Line.msg "⚠ Warning: Firmware size exceeds typical app partition limit!" ∈
        analyze_firmware_size (some e) fs ∧
      ∀ n, Line.remainingSpace n ∉ analyze_firmware_size (some e) fs) := by
  constructor
  · intro hle
    have hnot : ¬ fd.size > max_app_size := not_lt.mpr hle
    constructor
    · simp [analyze_firmware_size, hfw, hnot]
    · simp [analyze_firmware_size, hfw, hnot]
  · intro hlt
    constructor
    · simp [analyze_firmware_size, hfw, hlt]
    · intro n
      simp [analyze_firmware_size, hfw, hlt]

/-- Witness for C2: a 100-byte firmware in a one-file filesystem. -/
theorem c2_size_analysis_threshold_witness :
    ((100 : Nat) ≤ max_app_size →
      analyze_firmware_size (some ⟨[], "bd"⟩)
          ⟨[("bd/firmware.bin", ⟨100, FContent.firmware⟩)], []⟩ =
        [Line.msg "Analyzing firmware size...", Line.sizeReport 100,
         Line.remainingSpace (max_app_size - 100)] ∧
      Line.msg "⚠ Warning: Firmware size exceeds typical app partition limit!" ∉
        analyze_firmware_size (some ⟨[], "bd"⟩)
          ⟨[("bd/firmware.bin", ⟨100, FContent.firmware⟩)], []⟩) ∧
    (max_app_size < (100 : Nat) →
      Line.msg "⚠ Warning: Firmware size exceeds typical app partition limit!" ∈
        analyze_firmware_size (some ⟨[], "bd"⟩)
          ⟨[("bd/firmware.bin", ⟨100, FContent.firmware⟩)], []⟩ ∧
      ∀ n, Line.remainingSpace n ∉
        analyze_firmware_size (some ⟨[], "bd"⟩)
          ⟨[("bd/firmware.bin", ⟨100, FContent.firmware⟩)], []⟩) :=
  c2_size_analysis_threshold ⟨[], "bd"⟩
    ⟨[("bd/firmware.bin", ⟨100, FContent.firmware⟩)], []⟩
    ⟨100, FContent.firmware⟩ (by decide)

/-! ### C3 and C6: the OTA success path -/

theorem readBuildVersion_mkdir (fs : FS) (p : String) :
    readBuildVersion (fs.mkdir p) = readBuildVersion fs := by
  unfold readBuildVersion
  rw [FS.getFile_mkdir]

/-- The OTA binary path and the manifest path can never coincide (their
lengths differ by 5 for any version and timestamp strings). -/
theorem ota_bin_ne_manifest (v ts : String) :
    ("ota_packages/" ++ ("t-deck-pro-os_v" ++ v ++ "_" ++ ts ++ ".bin") : String) ≠
      "ota_packages/version_v" ++ v ++ "_" ++ ts ++ ".json" := by
  intro h
  have hl := congrArg String.length h
  simp only [String.length_append] at hl
  have h1 : ("ota_packages/" : String).length = 13 := rfl
  have h2 : ("t-deck-pro-os_v" : String).length = 15 := rfl
  have h3 : ("_" : String).length = 1 := rfl
  have h4 : (".bin" : String).length = 4 := rfl
  have h5 : ("ota_packages/version_v" : String).length = 22 := rfl
  have h6 : (".json" : String).length = 5 := rfl
  rw [h1, h2, h3, h4, h5, h6] at hl
  omega

/-- Characterization of the OTA packager's success path: guard passes and the
firmware exists, so exactly the binary copy and the manifest are written. -/
theorem create_ota_success (e : Env) (ts : String) (fs : FS) (fd : FileData)
    (hcond : (!strContains (e.get "PIOENV" "unknown") "release" &&
              !strContains (e.get "PIOENV" "unknown") "ota") = false)
    (hfw : fs.getFile (e.buildDir ++ "/firmware.bin") = some fd) :
    create_ota_package (some e) ts fs =
      ⟨((fs.mkdir "ota_packages").write
          ("ota_packages/" ++ ("t-deck-pro-os_v" ++ readBuildVersion fs ++ "_" ++ ts ++ ".bin")) fd).write
          ("ota_packages/version_v" ++ readBuildVersion fs ++ "_" ++ ts ++ ".json")
          ⟨0, FContent.manifest ⟨readBuildVersion fs, ts, e.get "PIOENV" "unknown", fd.size,
             "t-deck-pro-os_v" ++ readBuildVersion fs ++ "_" ++ ts ++ ".bin"⟩⟩,
       [Line.msg "Creating OTA package...",
        Line.msg ("✓ OTA package created: " ++
          ("ota_packages/" ++ ("t-deck-pro-os_v" ++ readBuildVersion fs ++ "_" ++ ts ++ ".bin"))),
        Line.msg ("✓ Version info: " ++
          ("ota_packages/version_v" ++ readBuildVersion fs ++ "_" ++ ts ++ ".json"))],
       ["ota_packages/" ++ ("t-deck-pro-os_v" ++ readBuildVersion fs ++ "_" ++ ts ++ ".bin"),
        "ota_packages/version_v" ++ readBuildVersion fs ++ "_" ++ ts ++ ".json"]⟩ := by
  have hfm : (fs.mkdir "ota_packages").getFile (e.buildDir ++ "/firmware.bin") = some fd := by
    rw [FS.getFile_mkdir]; exact hfw
  simp [create_ota_package, hcond, hfm, readBuildVersion_mkdir]

/-- C3: on a release build with the firmware present, one invocation of the
OTA packager writes exactly one binary copy and one manifest; the timestamp
embedded in the binary filename, the one in the manifest filename, and the
manifest's `timestamp` field are all the same `ts`. -/
theorem c3_ota_release_one_bin_one_manifest (e : Env) (ts : String) (fs : FS)
    (fd : FileData)
    (hrel : strContains (e.get "PIOENV" "unknown") "release" = true)
    (hfw : fs.getFile (e.buildDir ++ "/firmware.bin") = some fd) :
    (create_ota_package (some e) ts fs).writes =
      ["ota_packages/" ++ ("t-deck-pro-os_v" ++ readBuildVersion fs ++ "_" ++ ts ++ ".bin"),
       "ota_packages/version_v" ++ readBuildVersion fs ++ "_" ++ ts ++ ".json"] ∧
    (create_ota_package (some e) ts fs).fs.getFile
        ("ota_packages/version_v" ++ readBuildVersion fs ++ "_" ++ ts ++ ".json") =
      some ⟨0, FContent.manifest ⟨readBuildVersion fs, ts, e.get "PIOENV" "unknown", fd.size,
             "t-deck-pro-os_v" ++ readBuildVersion fs ++ "_" ++ ts ++ ".bin"⟩⟩ ∧
    (create_ota_package (some e) ts fs).fs.getFile
        ("ota_packages/" ++ ("t-deck-pro-os_v" ++ readBuildVersion fs ++ "_" ++ ts ++ ".bin")) =
      some fd := by
  have hcond : (!strContains (e.get "PIOENV" "unknown") "release" &&
      !strContains (e.get "PIOENV" "unknown") "ota") = false := by
    simp [hrel]
  have heq := create_ota_success e ts fs fd hcond hfw
  refine ⟨by rw [heq], by rw [heq]; exact FS.getFile_write_self _ _ _, ?_⟩
  rw [heq]
  show (FS.write _ _ _).getFile _ = some fd
  rw [FS.getFile_write_ne _ _ _ _ (ota_bin_ne_manifest (readBuildVersion fs) ts)]
  exact FS.getFile_write_self _ _ _

/-- Witness for C3. -/
theorem c3_ota_release_one_bin_one_manifest_witness :
    (create_ota_package (some ⟨[("PIOENV", "release")], "bd"⟩) "T"
        ⟨[("bd/firmware.bin", ⟨9, FContent.firmware⟩)], []⟩).writes =
      ["ota_packages/" ++ ("t-deck-pro-os_v" ++
          readBuildVersion ⟨[("bd/firmware.bin", ⟨9, FContent.firmware⟩)], []⟩ ++ "_" ++ "T" ++ ".bin"),
       "ota_packages/version_v" ++
          readBuildVersion ⟨[("bd/firmware.bin", ⟨9, FContent.firmware⟩)], []⟩ ++ "_" ++ "T" ++ ".json"] ∧
    (create_ota_package (some ⟨[("PIOENV", "release")], "bd"⟩) "T"
        ⟨[("bd/firmware.bin", ⟨9, FContent.firmware⟩)], []⟩).fs.getFile
        ("ota_packages/version_v" ++
          readBuildVersion ⟨[("bd/firmware.bin", ⟨9, FContent.firmware⟩)], []⟩ ++ "_" ++ "T" ++ ".json") =
      some ⟨0, FContent.manifest
        ⟨readBuildVersion ⟨[("bd/firmware.bin", ⟨9, FContent.firmware⟩)], []⟩, "T", "release", 9,
         "t-deck-pro-os_v" ++
          readBuildVersion ⟨[("bd/firmware.bin", ⟨9, FContent.firmware⟩)], []⟩ ++ "_" ++ "T" ++ ".bin"⟩⟩ ∧
    (create_ota_package (some ⟨[("PIOENV", "release")], "bd"⟩) "T"
        ⟨[("bd/firmware.bin", ⟨9, FContent.firmware⟩)], []⟩).fs.getFile
        ("ota_packages/" ++ ("t-deck-pro-os_v" ++
          readBuildVersion ⟨[("bd/firmware.bin", ⟨9, FContent.firmware⟩)], []⟩ ++ "_" ++ "T" ++ ".bin")) =
      some ⟨9, FContent.firmware⟩ :=
  c3_ota_release_one_bin_one_manifest ⟨[("PIOENV", "release")], "bd"⟩ "T"
    ⟨[("bd/firmware.bin", ⟨9, FContent.firmware⟩)], []⟩ ⟨9, FContent.firmware⟩
    (by decide) (by decide)

theorem readBuildVersion_default (fs : FS)
    (hv : ∀ d, fs.getFile "src/core/build_info.h" = some d →
          ∀ s, d.content = FContent.text s →
            (pySplit '\x0a' s.data).find? versionLineMatches = none) :
    readBuildVersion fs = "1.0.0" := by
  unfold readBuildVersion
  cases hd : fs.getFile "src/core/build_info.h" with
  | none => rfl
  | some d =>
    obtain ⟨sz, c⟩ := d
    cases c with
    | text s =>
      have := hv ⟨sz, FContent.text s⟩ hd s rfl
      simp [extractVersion, this]
    | firmware => rfl
    | manifest m => rfl

/-- C6: on an OTA packaging run where the version header is absent, or holds
no line containing both the `BUILD_VERSION` marker and a quote, the manifest
is written with the default version `"1.0.0"` (and the file names embed it). -/
theorem c6_manifest_default_version (e : Env) (ts : String) (fs : FS) (fd : FileData)
    (hg : (strContains (e.get "PIOENV" "unknown") "release" ||
           strContains (e.get "PIOENV" "unknown") "ota") = true)
    (hfw : fs.getFile (e.buildDir ++ "/firmware.bin") = some fd)
    (hv : ∀ d, fs.getFile "src/core/build_info.h" = some d →
          ∀ s, d.content = FContent.text s →
            (pySplit '\x0a' s.data).find? versionLineMatches = none) :
    (create_ota_package (some e) ts fs).fs.getFile
        ("ota_packages/version_v1.0.0_" ++ ts ++ ".json") =
      some ⟨0, FContent.manifest ⟨"1.0.0", ts, e.get "PIOENV" "unknown", fd.size,
             "t-deck-pro-os_v1.0.0_" ++ ts ++ ".bin"⟩⟩ ∧
    (create_ota_package (some e) ts fs).writes =
      ["ota_packages/t-deck-pro-os_v1.0.0_" ++ ts ++ ".bin",
       "ota_packages/version_v1.0.0_" ++ ts ++ ".json"] := by
  have hcond : (!strContains (e.get "PIOENV" "unknown") "release" &&
      !strContains (e.get "PIOENV" "unknown") "ota") = false := by
    rcases Bool.or_eq_true_iff.mp hg with h | h <;> simp [h]
  have hdef := readBuildVersion_default fs hv
  have heq := create_ota_success e ts fs fd hcond hfw
  rw [hdef] at heq
  have e1 : ("ota_packages/" ++ ("t-deck-pro-os_v" ++ "1.0.0" ++ "_" ++ ts ++ ".bin") : String) =
      "ota_packages/t-deck-pro-os_v1.0.0_" ++ ts ++ ".bin" := by
    have : ("t-deck-pro-os_v" ++ "1.0.0" ++ "_" : String) = "t-deck-pro-os_v1.0.0_" := rfl
    rw [this]
    apply String.ext
    simp [List.append_assoc]
  have e2 : ("ota_packages/version_v" ++ "1.0.0" ++ "_" ++ ts ++ ".json" : String) =
      "ota_packages/version_v1.0.0_" ++ ts ++ ".json" := by
    have : ("ota_packages/version_v" ++ "1.0.0" ++ "_" : String) = "ota_packages/version_v1.0.0_" := rfl
    rw [this]
  have e3 : ("t-deck-pro-os_v" ++ "1.0.0" ++ "_" ++ ts ++ ".bin" : String) =
      "t-deck-pro-os_v1.0.0_" ++ ts ++ ".bin" := by
    have : ("t-deck-pro-os_v" ++ "1.0.0" ++ "_" : String) = "t-deck-pro-os_v1.0.0_" := rfl
    rw [this]
  rw [e1, e2, e3] at heq
  constructor
  · rw [heq]
    exact FS.getFile_write_self _ _ _
  · rw [heq]

/-- Witness for C6: release build, firmware present, version header absent. -/
theorem c6_manifest_default_version_witness :
    (create_ota_package (some ⟨[("PIOENV", "ota")], "bd"⟩) "T"
        ⟨[("bd/firmware.bin", ⟨9, FContent.firmware⟩)], []⟩).fs.getFile
        ("ota_packages/version_v1.0.0_" ++ "T" ++ ".json") =
      some ⟨0, FContent.manifest ⟨"1.0.0", "T", "ota", 9,
             "t-deck-pro-os_v1.0.0_" ++ "T" ++ ".bin"⟩⟩ ∧
    (create_ota_package (some ⟨[("PIOENV", "ota")], "bd"⟩) "T"
        ⟨[("bd/firmware.bin", ⟨9, FContent.firmware⟩)], []⟩).writes =
      ["ota_packages/t-deck-pro-os_v1.0.0_" ++ "T" ++ ".bin",
       "ota_packages/version_v1.0.0_" ++ "T" ++ ".json"] :=
  c6_manifest_default_version ⟨[("PIOENV", "ota")], "bd"⟩ "T"
    ⟨[("bd/firmware.bin", ⟨9, FContent.firmware⟩)], []⟩ ⟨9, FContent.firmware⟩
    (by decide) (by decide)
    (by
      intro d hd s hs
      rw [show (⟨[("bd/firmware.bin", ⟨9, FContent.firmware⟩)], []⟩ : FS).getFile
          "src/core/build_info.h" = none from by decide] at hd
      exact Option.noConfusion hd)

/-! ### C4 -/

/-- Two appended strings are distinct whenever their suffixes end in
different characters. -/
theorem string_append_ne_of_last (x y suf1 suf2 : String) (c1 c2 : Char)
    (h1 : suf1.data.getLast? = some c1) (h2 : suf2.data.getLast? = some c2)
    (hne : c1 ≠ c2) : x ++ suf1 ≠ y ++ suf2 := by
  intro h
  have hd : x.data ++ suf1.data = y.data ++ suf2.data := congrArg String.data h
  have hg := congrArg List.getLast? hd
  rw [List.getLast?_append, List.getLast?_append, h1, h2] at hg
  simp [Option.or] at hg
  exact hne hg

/-- C4: release/ota build, firmware binary absent: the OTA packager writes no
files and prints its error line, while the artifact collector's handling of
the `.elf` and `.map` files is exactly what it would be in any case —
each is copied iff it exists, independent of the missing binary. -/
theorem c4_missing_firmware_isolated (e : Env) (ts1 ts2 : String) (fs : FS)
    (hg : (strContains (e.get "PIOENV" "unknown") "release" ||
           strContains (e.get "PIOENV" "unknown") "ota") = true)
    (hfw : fs.getFile (e.buildDir ++ "/firmware.bin") = none) :
    (create_ota_package (some e) ts2 fs).writes = [] ∧
    Line.msg "✗ Firmware binary not found for OTA package" ∈
      (create_ota_package (some e) ts2 fs).out ∧
    (generate_build_artifacts (some e) ts1 fs).writes =
      ((if (fs.getFile (e.buildDir ++ "/firmware.elf")).isSome then
          ["build_artifacts/t-deck-pro-os_" ++ e.get "PIOENV" "unknown" ++ ".elf"]
        else []) ++
       (if (fs.getFile (e.buildDir ++ "/firmware.map")).isSome then
          ["build_artifacts/t-deck-pro-os_" ++ e.get "PIOENV" "unknown" ++ ".map"]
        else [])) := by
  have hcond : (!strContains (e.get "PIOENV" "unknown") "release" &&
      !strContains (e.get "PIOENV" "unknown") "ota") = false := by
    rcases Bool.or_eq_true_iff.mp hg with h | h <;> simp [h]
  have hfm : (fs.mkdir "ota_packages").getFile (e.buildDir ++ "/firmware.bin") = none := by
    rw [FS.getFile_mkdir]; exact hfw
  refine ⟨by simp [create_ota_package, hcond, hfm], by simp [create_ota_package, hcond, hfm], ?_⟩
  have hfm1 : (fs.mkdir "build_artifacts").getFile (e.buildDir ++ "/firmware.bin") = none := by
    rw [FS.getFile_mkdir]; exact hfw
  rcases helf : fs.getFile (e.buildDir ++ "/firmware.elf") with _ | fdE
  · have helf1 : (fs.mkdir "build_artifacts").getFile (e.buildDir ++ "/firmware.elf") = none := by
      rw [FS.getFile_mkdir]; exact helf
    rcases hmap : fs.getFile (e.buildDir ++ "/firmware.map") with _ | fdM
    · have hmap1 : (fs.mkdir "build_artifacts").getFile (e.buildDir ++ "/firmware.map") = none := by
        rw [FS.getFile_mkdir]; exact hmap
      simp [generate_build_artifacts, hfm1, helf1, hmap1]
    · have hmap1 : (fs.mkdir "build_artifacts").getFile (e.buildDir ++ "/firmware.map") = some fdM := by
        rw [FS.getFile_mkdir]; exact hmap
      simp [generate_build_artifacts, hfm1, helf1, hmap1]
  · have helf1 : (fs.mkdir "build_artifacts").getFile (e.buildDir ++ "/firmware.elf") = some fdE := by
      rw [FS.getFile_mkdir]; exact helf
    have hne : e.buildDir ++ "/firmware.map" ≠
        "build_artifacts/t-deck-pro-os_" ++ e.get "PIOENV" "unknown" ++ ".elf" :=
      string_append_ne_of_last e.buildDir
        ("build_artifacts/t-deck-pro-os_" ++ e.get "PIOENV" "unknown")
        "/firmware.map" ".elf" 'p' 'f' (by decide) (by decide) (by decide)
    have hmapw : ((fs.mkdir "build_artifacts").write
        ("build_artifacts/t-deck-pro-os_" ++ e.get "PIOENV" "unknown" ++ ".elf") fdE).getFile
        (e.buildDir ++ "/firmware.map") = fs.getFile (e.buildDir ++ "/firmware.map") := by
      rw [FS.getFile_write_ne _ _ _ _ hne, FS.getFile_mkdir]
    rcases hmap : fs.getFile (e.buildDir ++ "/firmware.map") with _ | fdM
    · rw [hmap] at hmapw
      simp [generate_build_artifacts, hfm1, helf1, hmapw]
    · rw [hmap] at hmapw
      simp [generate_build_artifacts, hfm1, helf1, hmapw]

/-- Witness for C4: release build, no firmware, only an ELF file present. -/
theorem c4_missing_firmware_isolated_witness :
    (create_ota_package (some ⟨[("PIOENV", "release")], "bd"⟩) "S"
        ⟨[("bd/firmware.elf", ⟨5, FContent.firmware⟩)], []⟩).writes = [] ∧
    Line.msg "✗ Firmware binary not found for OTA package" ∈
      (create_ota_package (some ⟨[("PIOENV", "release")], "bd"⟩) "S"
        ⟨[("bd/firmware.elf", ⟨5, FContent.firmware⟩)], []⟩).out ∧
    (generate_build_artifacts (some ⟨[("PIOENV", "release")], "bd"⟩) "T"
        ⟨[("bd/firmware.elf", ⟨5, FContent.firmware⟩)], []⟩).writes =
      ((if ((⟨[("bd/firmware.elf", ⟨5, FContent.firmware⟩)], []⟩ : FS).getFile
            ("bd" ++ "/firmware.elf")).isSome then
          ["build_artifacts/t-deck-pro-os_" ++
            Env.get ⟨[("PIOENV", "release")], "bd"⟩ "PIOENV" "unknown" ++ ".elf"]
        else []) ++
       (if ((⟨[("bd/firmware.elf", ⟨5, FContent.firmware⟩)], []⟩ : FS).getFile
            ("bd" ++ "/firmware.map")).isSome then
          ["build_artifacts/t-deck-pro-os_" ++
            Env.get ⟨[("PIOENV", "release")], "bd"⟩ "PIOENV" "unknown" ++ ".map"]
        else [])) :=
  c4_missing_firmware_isolated ⟨[("PIOENV", "release")], "bd"⟩ "T" "S"
    ⟨[("bd/firmware.elf", ⟨5, FContent.firmware⟩)], []⟩ (by decide) (by decide)

/-! ### C7 -/

/-- Cancellation for paths that differ only in an embedded timestamp. -/
theorem string_append_ne_mid (P suf a b : String) (h : a ≠ b) :
    P ++ a ++ suf ≠ P ++ b ++ suf := by
  intro he
  apply h
  have hd : (P.data ++ a.data) ++ suf.data = (P.data ++ b.data) ++ suf.data :=
    congrArg String.data he
  exact String.ext (List.append_cancel_left (List.append_cancel_right hd))

/-- When only the firmware binary exists in the build directory, the artifact
collector writes exactly the one timestamped binary copy. -/
theorem generate_writes_fw_only (e : Env) (ts : String) (fs : FS) (fd : FileData)
    (hfw : fs.getFile (e.buildDir ++ "/firmware.bin") = some fd)
    (helf : fs.getFile (e.buildDir ++ "/firmware.elf") = none)
    (hmap : fs.getFile (e.buildDir ++ "/firmware.map") = none) :
    (generate_build_artifacts (some e) ts fs).writes =
      ["build_artifacts/t-deck-pro-os_" ++ e.get "PIOENV" "unknown" ++ "_" ++ ts ++ ".bin"] := by
  have hfm1 : (fs.mkdir "build_artifacts").getFile (e.buildDir ++ "/firmware.bin") = some fd := by
    rw [FS.getFile_mkdir]; exact hfw
  have hneElf : e.buildDir ++ "/firmware.elf" ≠
      "build_artifacts/t-deck-pro-os_" ++ e.get "PIOENV" "unknown" ++ "_" ++ ts ++ ".bin" :=
    string_append_ne_of_last e.buildDir
      ("build_artifacts/t-deck-pro-os_" ++ e.get "PIOENV" "unknown" ++ "_" ++ ts)
      "/firmware.elf" ".bin" 'f' 'n' (by decide) (by decide) (by decide)
  have hneMap : e.buildDir ++ "/firmware.map" ≠
      "build_artifacts/t-deck-pro-os_" ++ e.get "PIOENV" "unknown" ++ "_" ++ ts ++ ".bin" :=
    string_append_ne_of_last e.buildDir
      ("build_artifacts/t-deck-pro-os_" ++ e.get "PIOENV" "unknown" ++ "_" ++ ts)
      "/firmware.map" ".bin" 'p' 'n' (by decide) (by decide) (by decide)
  have hElfW : ((fs.mkdir "build_artifacts").write
      ("build_artifacts/t-deck-pro-os_" ++ e.get "PIOENV" "unknown" ++ "_" ++ ts ++ ".bin") fd).getFile
      (e.buildDir ++ "/firmware.elf") = none := by
    rw [FS.getFile_write_ne _ _ _ _ hneElf, FS.getFile_mkdir]; exact helf
  have hMapW : ((fs.mkdir "build_artifacts").write
      ("build_artifacts/t-deck-pro-os_" ++ e.get "PIOENV" "unknown" ++ "_" ++ ts ++ ".bin") fd).getFile
      (e.buildDir ++ "/firmware.map") = none := by
    rw [FS.getFile_write_ne _ _ _ _ hneMap, FS.getFile_mkdir]; exact hmap
  simp [generate_build_artifacts, hfm1, hElfW, hMapW]

/-- C7 counterexample: two full pipeline runs in immediate succession with
distinct timestamps ("A" then "B") on a build directory holding an ELF file.
Both runs write the very same artifact path
`build_artifacts/t-deck-pro-os_debug.elf` — the ELF (and map) artifact names
embed no timestamp, so the second run overwrites the first run's file,
contrary to the claim. -/
theorem c7_counterexample :
    ("A" : String) ≠ "B" ∧
    "build_artifacts/t-deck-pro-os_debug.elf" ∈
      (post_build_main (some ⟨[("PIOENV", "debug")], "bd"⟩) "A" "A"
        ⟨[("bd/firmware.elf", ⟨5, FContent.firmware⟩)], []⟩).writes ∧
    "build_artifacts/t-deck-pro-os_debug.elf" ∈
      (post_build_main (some ⟨[("PIOENV", "debug")], "bd"⟩) "B" "B"
        (post_build_main (some ⟨[("PIOENV", "debug")], "bd"⟩) "A" "A"
          ⟨[("bd/firmware.elf", ⟨5, FContent.firmware⟩)], []⟩).fs).writes := by
  decide

/-- C7 amended: restricted to the timestamped artifacts, the claim holds —
when the build directory holds only the firmware binary (no ELF, no map),
two successive artifact-collection runs with different timestamps write
disjoint artifact sets: each writes exactly its own timestamped binary copy,
and those paths differ. -/
theorem c7_amended_timestamped_artifacts_distinct (e : Env) (fs : FS)
    (fd fd2 : FileData) (ts1 ts2 : String) (hts : ts1 ≠ ts2)
    (hfw : fs.getFile (e.buildDir ++ "/firmware.bin") = some fd)
    (helf : fs.getFile (e.buildDir ++ "/firmware.elf") = none)
    (hmap : fs.getFile (e.buildDir ++ "/firmware.map") = none)
    (hfw2 : (generate_build_artifacts (some e) ts1 fs).fs.getFile
      (e.buildDir ++ "/firmware.bin") = some fd2)
    (helf2 : (generate_build_artifacts (some e) ts1 fs).fs.getFile
      (e.buildDir ++ "/firmware.elf") = none)
    (hmap2 : (generate_build_artifacts (some e) ts1 fs).fs.getFile
      (e.buildDir ++ "/firmware.map") = none) :
    (generate_build_artifacts (some e) ts1 fs).writes =
      ["build_artifacts/t-deck-pro-os_" ++ e.get "PIOENV" "unknown" ++ "_" ++ ts1 ++ ".bin"] ∧
    (generate_build_artifacts (some e) ts2
        ((generate_build_artifacts (some e) ts1 fs).fs)).writes =
      ["build_artifacts/t-deck-pro-os_" ++ e.get "PIOENV" "unknown" ++ "_" ++ ts2 ++ ".bin"] ∧
    ∀ p ∈ (generate_build_artifacts (some e) ts1 fs).writes,
      p ∉ (generate_build_artifacts (some e) ts2
        ((generate_build_artifacts (some e) ts1 fs).fs)).writes := by
  have w1 := generate_writes_fw_only e ts1 fs fd hfw helf hmap
  have w2 := generate_writes_fw_only e ts2 _ fd2 hfw2 helf2 hmap2
  refine ⟨w1, w2, ?_⟩
  intro p hp
  rw [w1, List.mem_singleton] at hp
  rw [w2]
  subst hp
  simp only [List.mem_singleton]
  exact string_append_ne_mid ("build_artifacts/t-deck-pro-os_" ++ e.get "PIOENV" "unknown" ++ "_")
    ".bin" ts1 ts2 hts

/-- Witness for the amended C7 at a concrete firmware-only build. -/
theorem c7_amended_timestamped_artifacts_distinct_witness :
    (generate_build_artifacts (some ⟨[("PIOENV", "debug")], "bd"⟩) "A"
        ⟨[("bd/firmware.bin", ⟨3, FContent.firmware⟩)], []⟩).writes =
      ["build_artifacts/t-deck-pro-os_" ++
        Env.get ⟨[("PIOENV", "debug")], "bd"⟩ "PIOENV" "unknown" ++ "_" ++ "A" ++ ".bin"] ∧
    (generate_build_artifacts (some ⟨[("PIOENV", "debug")], "bd"⟩) "B"
        ((generate_build_artifacts (some ⟨[("PIOENV", "debug")], "bd"⟩) "A"
          ⟨[("bd/firmware.bin", ⟨3, FContent.firmware⟩)], []⟩).fs)).writes =
      ["build_artifacts/t-deck-pro-os_" ++
        Env.get ⟨[("PIOENV", "debug")], "bd"⟩ "PIOENV" "unknown" ++ "_" ++ "B" ++ ".bin"] ∧
    ∀ p ∈ (generate_build_artifacts (some ⟨[("PIOENV", "debug")], "bd"⟩) "A"
        ⟨[("bd/firmware.bin", ⟨3, FContent.firmware⟩)], []⟩).writes,
      p ∉ (generate_build_artifacts (some ⟨[("PIOENV", "debug")], "bd"⟩) "B"
        ((generate_build_artifacts (some ⟨[("PIOENV", "debug")], "bd"⟩) "A"
          ⟨[("bd/firmware.bin", ⟨3, FContent.firmware⟩)], []⟩).fs)).writes :=
  c7_amended_timestamped_artifacts_distinct ⟨[("PIOENV", "debug")], "bd"⟩
    ⟨[("bd/firmware.bin", ⟨3, FContent.firmware⟩)], []⟩
    ⟨3, FContent.firmware⟩ ⟨3, FContent.firmware⟩ "A" "B"
    (by decide) (by decide) (by decide) (by decide) (by decide) (by decide) (by decide)

/-! ### C10 -/

/-- The characters of a line after its first double quote (empty if none). -/
def afterFirstQuote (l : List Char) : List Char :=
  (l.dropWhile (fun c => c != '"')).drop 1

/-- The characters of a line up to (excluding) its first double quote. -/
def upToNextQuote (l : List Char) : List Char :=
  l.takeWhile (fun c => c != '"')

theorem pySplit_ne_nil (sep : Char) (l : List Char) : pySplit sep l ≠ [] := by
  cases l with
  | nil => intro h; exact List.noConfusion h
  | cons c t =>
    intro h
    simp only [pySplit] at h
    split at h
    · exact List.noConfusion h
    · split at h <;> exact List.noConfusion h

theorem pySplit_head (sep : Char) (l : List Char) :
    (pySplit sep l).head? = some (l.takeWhile (fun c => c != sep)) := by
  induction l with
  | nil => rfl
  | cons c t ih =>
    by_cases hc : c = sep
    · subst hc
      simp [pySplit, List.takeWhile_cons]
    · rcases hr : pySplit sep t with _ | ⟨h0, t2⟩
      · exact absurd hr (pySplit_ne_nil sep t)
      · have hh : h0 = t.takeWhile (fun c => c != sep) := by
          have hx := ih
          rw [hr] at hx
          simpa using hx
        have hb : (c == sep) = false := by simp [hc]
        simp [pySplit, hb, hr, List.takeWhile_cons, hh, hc]

theorem pySplit_getD_one (sep : Char) (l : List Char) (hmem : sep ∈ l) :
    (pySplit sep l).getD 1 [] =
      ((l.dropWhile (fun c => c != sep)).drop 1).takeWhile (fun c => c != sep) := by
  induction l with
  | nil => cases hmem
  | cons c t ih =>
    by_cases hc : c = sep
    · subst hc
      rcases hr : pySplit c t with _ | ⟨h0, t2⟩
      · exact absurd hr (pySplit_ne_nil c t)
      · have hh : h0 = t.takeWhile (fun x => x != c) := by
          have hx := pySplit_head c t
          rw [hr] at hx
          simpa using hx
        simp [pySplit, hr, hh, List.dropWhile_cons]
    · have hmem' : sep ∈ t := by
        rcases List.mem_cons.mp hmem with h | h
        · exact absurd h.symm hc
        · exact h
      rcases hr : pySplit sep t with _ | ⟨h0, t2⟩
      · exact absurd hr (pySplit_ne_nil sep t)
      · have hx := ih hmem'
        rw [hr] at hx
        have hb : (c == sep) = false := by simp [hc]
        have hb2 : (c != sep) = true := by simp [hc]
        simp only [pySplit, hb, hr, List.dropWhile_cons, hb2, if_true, if_false] at hx ⊢
        simpa using hx

theorem containsSub_single (c : Char) (l : List Char)
    (h : containsSub [c] l = true) : c ∈ l := by
  induction l with
  | nil => simp [containsSub, isPrefixOfChars] at h
  | cons a t ih =>
    rw [containsSub] at h
    rcases Bool.or_eq_true_iff.mp h with h1 | h2
    · simp [isPrefixOfChars] at h1
      exact h1 ▸ List.mem_cons_self a t
    · exact List.mem_cons_of_mem _ (ih h2)

/-- C10 counterexample: the header line `#define BUILD_VERSION "2.0` contains
the marker and one double quote but no second quote: there is no "substring
strictly between the first and second double quote", yet extraction returns
`"2.0"` (the remainder of the line after the single quote), so the claim's
characterization fails on this content. -/
theorem c10_counterexample :
    extractVersion "#define BUILD_VERSION \"2.0" = "2.0" ∧
    versionLineMatches ("#define BUILD_VERSION \"2.0").data = true ∧
    (afterFirstQuote ("#define BUILD_VERSION \"2.0").data).contains '"' = false := by
  decide

/-- C10 amended: version extraction is total and deterministic; it selects
the first line containing both `BUILD_VERSION` and a quote and returns the
characters strictly after that line's first double quote up to — but not
including — the next double quote, or to the end of the line when no second
quote exists; if no such line exists the version stays `"1.0.0"`. -/
theorem c10_amended_extraction_characterized (content : String) :
    extractVersion content =
      match (pySplit '\x0a' content.data).find? versionLineMatches with
      | none => "1.0.0"
      | some l => String.mk (upToNextQuote (afterFirstQuote l)) := by
  unfold extractVersion
  cases hf : (pySplit '\x0a' content.data).find? versionLineMatches with
  | none => rfl
  | some l =>
    have hm := List.find?_some hf
    have hq : '"' ∈ l := by
      have hc : containsSub "\"".data l = true := by
        unfold versionLineMatches at hm
        exact (Bool.and_eq_true_iff.mp hm).2
      exact containsSub_single '"' l hc
    show String.mk ((pySplit '"' l).getD 1 []) =
      String.mk (upToNextQuote (afterFirstQuote l))
    rw [pySplit_getD_one '"' l hq]
    rfl
